import Mathlib

/-!
Shallow embedding of the multi-signal risk scoring engine and the
diff-position mapper of the AI-Code-Reviewer repository.

Sources embedded:
 - src/api/webhook.js          (parseDiffPositions)
 - src/lib/riskConfig.js       (RISK_CONFIG, getRiskLevel, validateWeights)
 - src/lib/signals.js          (the six signal calculators; the per-agent
   files under src/lib/agents mirror these bodies verbatim)
 - src/lib/riskAnalysis.js     (analyzeRisk, generateMitigations, round)

Modelling conventions:
 - JS numbers are modelled as rationals; all the arithmetic the engine
   performs (sums, divisions by positive counts, min, and the
   three-decimal rounding Math.round(x*1000)/1000) is exact on the
   inputs under study, so the rational model is faithful.
 - JS strings are modelled as Lean String values; the character-level
   operations the code uses (startsWith, includes, toLowerCase on ASCII
   configuration patterns) are re-implemented over List Char so that
   every definition evaluates in the kernel.
 - Date values are modelled by the observations the code extracts from
   them: epoch milliseconds, getHours and getDay.  An absent or
   unparseable date is Option.none (the falsy / NaN branch of the code, which
   makes every isWithinDays test false).  "new Date()" is modelled by an
   explicit clock parameter threaded to the functions that call it.
 - JS objects used as string-keyed maps (coverageData, flakeData, the
   diff position map) are modelled as functions to Option.
 - Presentation-only strings (explanation texts, the rendered summary,
   number formatting inside citation notes) and the run-identifying
   audit fields (traceId, timestamp, executionTimeMs) are not part of
   any analysed property and are omitted from the records; every field
   that carries data a property depends on is embedded.
-/

namespace CodeReviewer

/-! ## String primitives (JS startsWith / includes / toLowerCase) -/

/-- JS String.prototype.startsWith, over character lists. -/
def startsWithL : List Char → List Char → Bool
  | _, [] => true
  | [], _ :: _ => false
  | c :: cs, d :: ds => c == d && startsWithL cs ds

/-- JS String.prototype.includes (substring test), over character lists. -/
def hasSub : List Char → List Char → Bool
  | hay, pat =>
    startsWithL hay pat ||
      match hay with
      | [] => false
      | _ :: t => hasSub t pat

/-- ASCII lower-casing of one character; the configuration patterns and the
inputs under study are ASCII, where JS toLowerCase acts exactly like this. -/
def asciiLower (c : Char) : Char :=
  if 'A' ≤ c ∧ c ≤ 'Z' then Char.ofNat (c.toNat + 32) else c

/-- JS String.prototype.toLowerCase, over character lists. -/
def lowerL (cs : List Char) : List Char := cs.map asciiLower

/-- Substring test on Lean strings. -/
def strHasSub (hay pat : String) : Bool := hasSub hay.data pat.data

/-- Lower-cased substring test: hay.toLowerCase().includes(pat). -/
def lowerHasSub (hay pat : String) : Bool := hasSub (lowerL hay.data) pat.data

/-- JS String.prototype.split with separator newline, over character
lists; like JS, the empty string yields one empty segment. -/
def splitLines : List Char → List (List Char)
  | [] => [[]]
  | '\n' :: rest => [] :: splitLines rest
  | c :: rest =>
    match splitLines rest with
    | [] => [[c]]
    | l :: ls => (c :: l) :: ls

/-- Math.round(num * 10^3) / 10^3 from riskAnalysis.js and signals.js;
JS Math.round x is the floor of x + 1/2. -/
def round3 (q : ℚ) : ℚ := (⌊q * 1000 + 1/2⌋ : ℚ) / 1000

/-! ## Diff position mapper (parseDiffPositions, src/api/webhook.js) -/

/-- Longest prefix of decimal digits together with the rest. -/
def takeDigits : List Char → List Char × List Char
  | [] => ([], [])
  | c :: cs =>
    if c.isDigit then
      let (d, r) := takeDigits cs
      (c :: d, r)
    else ([], c :: cs)

/-- Decimal value of a digit string (JS parseInt with radix 10). -/
def digitsToNat (ds : List Char) : ℕ :=
  ds.foldl (fun n c => n * 10 + (c.toNat - 48)) 0

/-- The optional group comma-then-digits of the hunk regex: consumes a
comma only when at least one digit follows, and fails (like the regex as
a whole, since a leftover comma can never match the required space) when
a comma is not followed by a digit. -/
def dropCommaDigits (cs : List Char) : Option (List Char) :=
  match cs with
  | ',' :: rest =>
    let (d, r) := takeDigits rest
    if d.isEmpty then none else some r
  | _ => some cs

/-- The hunk-header regex of parseDiffPositions, anchored at the start of
the line, returning the captured new-file start line when it matches.
The regex is deterministic on its input (greedy digit runs can never be
usefully backtracked), so this direct parser is equivalent. -/
def parseHunkHeader (cs : List Char) : Option ℕ :=
  match cs with
  | '@' :: '@' :: ' ' :: '-' :: rest =>
    let (d1, r1) := takeDigits rest
    if d1.isEmpty then none
    else
      match dropCommaDigits r1 with
      | none => none
      | some r2 =>
        match r2 with
        | ' ' :: '+' :: r3 =>
          let (d2, r4) := takeDigits r3
          if d2.isEmpty then none
          else
            match dropCommaDigits r4 with
            | none => none
            | some r5 =>
              match r5 with
              | ' ' :: '@' :: '@' :: _ => some (digitsToNat d2)
              | _ => none
        | _ => none
  | _ => none

/-- State of the parseDiffPositions loop: the current new-file line
counter and the positions object built so far.  The counter is an
integer because the code computes new-file-start minus one. -/
structure DiffState where
  currentNewLine : Int
  positions : Int → Option ℕ

/-- JS object assignment positions[k] = v. -/
def setPos (m : Int → Option ℕ) (k : Int) (v : ℕ) : Int → Option ℕ :=
  fun x => if x = k then some v else m x

/-- One iteration of the parseDiffPositions loop on one patch line,
given the 1-based diff position of that line. -/
def diffStep (diffPosition : ℕ) (st : DiffState) (line : List Char) : DiffState :=
  match parseHunkHeader line with
  | some c => { st with currentNewLine := (c : Int) - 1 }
  | none =>
    if !startsWithL line ['-'] && !startsWithL line ['+'] then
      { st with currentNewLine := st.currentNewLine + 1 }
    else if startsWithL line ['+'] && !startsWithL line ['+', '+', '+'] then
      { currentNewLine := st.currentNewLine + 1,
        positions := setPos st.positions (st.currentNewLine + 1) diffPosition }
    else st

/-- The parseDiffPositions loop: diffPosition is incremented before each
line is examined, so the line after position pos is processed at pos+1. -/
def diffRun : List (List Char) → ℕ → DiffState → DiffState
  | [], _, st => st
  | l :: ls, pos, st => diffRun ls (pos + 1) (diffStep (pos + 1) st l)

/-- parseDiffPositions from src/api/webhook.js: split the patch on
newlines and run the loop from diff position 0 and new-file line 0 with
an empty positions object. -/
def parseDiffPositions (patch : String) : Int → Option ℕ :=
  (diffRun (splitLines patch.data) 0
    { currentNewLine := 0, positions := fun _ => none }).positions

/-- The new-file line numbers at which the loop records addition lines,
as a recursive function of the line list and the running counter; used to
state that the keys of the map are exactly the addition lines. -/
def addedNewLines : List (List Char) → Int → List Int
  | [], _ => []
  | l :: ls, cur =>
    match parseHunkHeader l with
    | some c => addedNewLines ls ((c : Int) - 1)
    | none =>
      if !startsWithL l ['-'] && !startsWithL l ['+'] then
        addedNewLines ls (cur + 1)
      else if startsWithL l ['+'] && !startsWithL l ['+', '+', '+'] then
        (cur + 1) :: addedNewLines ls (cur + 1)
      else addedNewLines ls cur

/-! ## Data model (src/lib/signals.js, src/lib/riskConfig.js) -/

/-- The six signal names, in the canonical iteration order of the signals
object literal built by analyzeRisk. -/
inductive SignalName
  | churn | coverage_gap | incident_hotspot | flake_proximity | diff_risk | time_pressure
deriving DecidableEq

/-- The evidence objects the calculators push onto their citations lists,
one constructor per object shape occurring in signals.js.  Formatted
note strings are presentation only and not modelled; every data field is. -/
inductive Citation
  | churnFile (file : String) (commits : ℕ) (highChurn : Bool)
  | coverageFile (file : String) (coverage : Option ℚ) (critical : Bool)
  | incidentFile (file : String) (incidents : ℕ) (hotspot : Bool)
      (recentIncidents : List (String × String × Option Int))
  | flakyFile (file : String) (isTestFile : Bool) (flakeRate : ℚ)
  | nearFlakyFile (file : String) (isTestFile : Bool)
  | largeDiff (changes : ℕ) (threshold : ℕ)
  | criticalPatternHits (hits : List (String × String)) (total : ℕ)
  | dangerousPatternHits (hits : List (String × String)) (total : ℕ)
  | weekend (day : ℕ)
  | lateNight (hour : ℕ)
  | rushHour (hour : ℕ)
  | urgencyIndicator (pat : String)
deriving DecidableEq

/-- Result of one signal calculator: its name, its rounded score and its
citations (the raw counts and explanation text are presentation only). -/
structure SignalResult where
  signal : SignalName
  score : ℚ
  citations : List Citation
deriving DecidableEq

/-- One changed file of the pull request as the calculators consume it. -/
structure ChangedFile where
  filename : String
  status : String
  additions : ℕ
  deletions : ℕ
  patch : Option String
deriving DecidableEq

/-- One commit of the externally supplied commit history; files may be
absent (the code guards with optional chaining) and the date is the
parsed timestamp, absent when missing or unparseable. -/
structure CommitRecord where
  files : Option (List String)
  date : Option Int
deriving DecidableEq

/-- One incident of the externally supplied incident history. -/
structure IncidentRecord where
  id : String
  severity : String
  files : Option (List String)
  date : Option Int
deriving DecidableEq

/-- Flakiness information for one file of the flake map. -/
structure FlakeInfo where
  isFlaky : Bool
  flakeRate : ℚ
  nearFlaky : Bool
deriving DecidableEq

/-- A JS Date by the observations the engine extracts from it: epoch
milliseconds (subtraction in isWithinDays), getHours and getDay. -/
structure DateTime where
  millis : Int
  hour : ℕ
  dayOfWeek : ℕ
deriving DecidableEq

/-- Pull-request metadata as the calculators consume it. -/
structure PullRequest where
  number : ℕ
  title : Option String
  body : Option String
  created_at : Option DateTime
  userLogin : Option String

/-- The per-signal weights object of RISK_CONFIG. -/
structure Weights where
  churn : ℚ
  coverage_gap : ℚ
  incident_hotspot : ℚ
  flake_proximity : ℚ
  diff_risk : ℚ
  time_pressure : ℚ
deriving DecidableEq

/-! ## RISK_CONFIG (src/lib/riskConfig.js) -/

namespace RiskConfig

def weights : Weights :=
  { churn := 15/100, coverage_gap := 20/100, incident_hotspot := 20/100,
    flake_proximity := 10/100, diff_risk := 25/100, time_pressure := 10/100 }

def thresholdLOW : ℚ := 3/10

def thresholdMEDIUM : ℚ := 6/10

def highChurnThreshold : ℕ := 10

def churnLookbackDays : ℕ := 30

def minCoverageThreshold : ℚ := 7/10

def criticalFilePatterns : List String := ["auth", "payment", "security", "crypto"]

def incidentLookbackDays : ℕ := 90

def hotspotThreshold : ℕ := 2

def flakePatterns : List String := ["test", "spec", "__tests__"]

def largeDiffThreshold : ℕ := 500

def criticalPatterns : List String :=
  ["password", "secret", "key", "token", "auth", "payment"]

def dangerousPatterns : List String :=
  ["eval", "exec", "dangerouslySetInnerHTML", "innerHTML"]

def rushHourStart : ℕ := 17

def rushHourEnd : ℕ := 23

def weekendRisk : ℚ := 3/10

def lateNightRisk : ℚ := 5/10

/-- The mitigation suggestion texts of RISK_CONFIG.mitigations, keyed by
signal name (all six keys are present in the configuration object). -/
def mitigations : SignalName → List String
  | .churn =>
    ["Consider adding more comprehensive tests for frequently changed files",
     "Review if this file should be refactored to reduce change frequency",
     "Add code freeze consideration for this module"]
  | .coverage_gap =>
    ["Add unit tests for uncovered code paths",
     "Consider integration tests for critical flows",
     "Request coverage report before merge"]
  | .incident_hotspot =>
    ["Request additional reviewer familiar with past incidents",
     "Add monitoring/alerting for this component",
     "Consider feature flag for gradual rollout"]
  | .flake_proximity =>
    ["Review and stabilize nearby flaky tests",
     "Add retry logic or increase timeouts if applicable",
     "Consider quarantining unstable tests"]
  | .diff_risk =>
    ["Break down into smaller, focused PRs",
     "Add security review for sensitive changes",
     "Request architectural review for large changes"]
  | .time_pressure =>
    ["Consider delaying merge to regular hours",
     "Ensure on-call coverage before deploying",
     "Add rollback plan documentation"]

end RiskConfig

/-- The three risk levels returned by getRiskLevel. -/
inductive RiskLevel
  | LOW | MEDIUM | HIGH
deriving DecidableEq

/-- Numeric severity of a risk level, used to state monotonicity. -/
def RiskLevel.rank : RiskLevel → ℕ
  | .LOW => 0
  | .MEDIUM => 1
  | .HIGH => 2

/-- getRiskLevel from src/lib/riskConfig.js. -/
def getRiskLevel (score : ℚ) : RiskLevel :=
  if score < RiskConfig.thresholdLOW then .LOW
  else if score < RiskConfig.thresholdMEDIUM then .MEDIUM
  else .HIGH

/-- validateWeights from src/lib/riskConfig.js: the weights sum is within
one thousandth of 1. -/
def validateWeights (w : Weights) : Bool :=
  decide (|w.churn + w.coverage_gap + w.incident_hotspot + w.flake_proximity +
    w.diff_risk + w.time_pressure - 1| ≤ 1/1000)

/-! ## Signal calculators (src/lib/signals.js) -/

/-- isWithinDays from signals.js: absent or unparseable dates never fall
within the window; otherwise the elapsed milliseconds divided by one day of
milliseconds must not exceed the day count. -/
def isWithinDays (date : Option Int) (days : ℕ) (nowMillis : Int) : Bool :=
  match date with
  | none => false
  | some d => decide (((nowMillis - d : ℚ) / (1000 * 60 * 60 * 24)) ≤ (days : ℚ))

/-- The optionally chained membership test files?.includes(name). -/
def optIncludes (xs : Option (List String)) (x : String) : Bool :=
  match xs with
  | none => false
  | some l => l.contains x

/-- Commits of the history touching the given file within the churn
lookback window. -/
def churnFileCommits (commitHistory : List CommitRecord) (nowMillis : Int)
    (f : ChangedFile) : ℕ :=
  (commitHistory.filter fun c =>
    optIncludes c.files f.filename &&
      isWithinDays c.date RiskConfig.churnLookbackDays nowMillis).length

/-- calculateChurnSignal from signals.js. -/
def calculateChurnSignal (files : List ChangedFile)
    (commitHistory : List CommitRecord) (nowMillis : Int) : SignalResult :=
  let citations := files.filterMap fun f =>
    let fileCommits := churnFileCommits commitHistory nowMillis f
    if fileCommits > 0 then
      some (Citation.churnFile f.filename fileCommits
        (decide (fileCommits ≥ RiskConfig.highChurnThreshold)))
    else none
  let maxChurn :=
    files.foldl (fun m f => max m (churnFileCommits commitHistory nowMillis f)) 0
  let score := min ((maxChurn : ℚ) / (RiskConfig.highChurnThreshold : ℚ)) 1
  { signal := .churn, score := round3 score, citations := citations }

/-- The uncovered test of calculateCoverageGapSignal: a file with no
coverage entry or with coverage below the minimum threshold. -/
def coverageUncovered (coverageData : String → Option ℚ) (f : ChangedFile) : Bool :=
  match coverageData f.filename with
  | none => true
  | some cov => decide (cov < RiskConfig.minCoverageThreshold)

/-- A filename matching one of the critical-file substring patterns,
case-insensitively. -/
def isCriticalFile (filename : String) : Bool :=
  RiskConfig.criticalFilePatterns.any fun p => lowerHasSub filename p

/-- calculateCoverageGapSignal from signals.js. -/
def calculateCoverageGapSignal (files : List ChangedFile)
    (coverageData : String → Option ℚ) : SignalResult :=
  let citations := files.filterMap fun f =>
    if coverageUncovered coverageData f then
      some (Citation.coverageFile f.filename (coverageData f.filename)
        (isCriticalFile f.filename))
    else none
  let uncoveredFiles := (files.filter (coverageUncovered coverageData)).length
  let criticalUncovered := (files.filter fun f =>
    coverageUncovered coverageData f && isCriticalFile f.filename).length
  let uncoveredRatio : ℚ :=
    if files.length > 0 then (uncoveredFiles : ℚ) / (files.length : ℚ) else 0
  let criticalPenalty : ℚ := (criticalUncovered : ℚ) * (2/10)
  let score := min (uncoveredRatio + criticalPenalty) 1
  { signal := .coverage_gap, score := round3 score, citations := citations }

/-- Incidents of the history referencing the given file within the
incident lookback window. -/
def relatedIncidents (incidentHistory : List IncidentRecord) (nowMillis : Int)
    (f : ChangedFile) : List IncidentRecord :=
  incidentHistory.filter fun i =>
    optIncludes i.files f.filename &&
      isWithinDays i.date RiskConfig.incidentLookbackDays nowMillis

/-- calculateIncidentHotspotSignal from signals.js. -/
def calculateIncidentHotspotSignal (files : List ChangedFile)
    (incidentHistory : List IncidentRecord) (nowMillis : Int) : SignalResult :=
  let citations := files.filterMap fun f =>
    let rel := relatedIncidents incidentHistory nowMillis f
    if rel.length > 0 then
      some (Citation.incidentFile f.filename rel.length
        (decide (rel.length ≥ RiskConfig.hotspotThreshold))
        ((rel.take 3).map fun i => (i.id, i.severity, i.date)))
    else none
  let hotspotCount := (files.filter fun f =>
    let rel := relatedIncidents incidentHistory nowMillis f
    decide (rel.length > 0) && decide (rel.length ≥ RiskConfig.hotspotThreshold)).length
  let score : ℚ :=
    if files.length > 0 then min ((hotspotCount : ℚ) / (files.length : ℚ)) 1 else 0
  { signal := .incident_hotspot, score := round3 score, citations := citations }

/-- A filename matching one of the flake patterns, case-insensitively. -/
def isTestFileName (filename : String) : Bool :=
  RiskConfig.flakePatterns.any fun p => lowerHasSub filename p

/-- Contribution of one file to the flake proximity accumulator: 1 when
flagged flaky, 1/2 when flagged near-flaky, otherwise 0. -/
def flakeAdd (flakeData : String → Option FlakeInfo) (f : ChangedFile) : ℚ :=
  match flakeData f.filename with
  | none => 0
  | some info => if info.isFlaky then 1 else if info.nearFlaky then 1/2 else 0

/-- calculateFlakeProximitySignal from signals.js. -/
def calculateFlakeProximitySignal (files : List ChangedFile)
    (flakeData : String → Option FlakeInfo) : SignalResult :=
  let citations := files.filterMap fun f =>
    match flakeData f.filename with
    | none => none
    | some info =>
      if info.isFlaky then
        some (Citation.flakyFile f.filename (isTestFileName f.filename) info.flakeRate)
      else if info.nearFlaky then
        some (Citation.nearFlakyFile f.filename (isTestFileName f.filename))
      else none
  let flakeProximityCount := files.foldl (fun acc f => acc + flakeAdd flakeData f) (0 : ℚ)
  let score : ℚ :=
    if files.length > 0 then min (flakeProximityCount / (files.length : ℚ)) 1 else 0
  { signal := .flake_proximity, score := round3 score, citations := citations }

/-- The patch text of a file, empty when absent (file.patch or empty). -/
def patchText (f : ChangedFile) : String := f.patch.getD ""

/-- The critical-pattern hits of calculateDiffRiskSignal: files outer,
patterns inner, a hit when the lower-cased filename or the lower-cased
patch contains the pattern. -/
def criticalHitsOf (files : List ChangedFile) : List (String × String) :=
  files.flatMap fun f =>
    RiskConfig.criticalPatterns.filterMap fun p =>
      if lowerHasSub f.filename p || lowerHasSub (patchText f) p then
        some (f.filename, p)
      else none

/-- The dangerous-pattern hits of calculateDiffRiskSignal: a hit when the
raw patch contains the pattern, case-sensitively. -/
def dangerousHitsOf (files : List ChangedFile) : List (String × String) :=
  files.flatMap fun f =>
    RiskConfig.dangerousPatterns.filterMap fun p =>
      if strHasSub (patchText f) p then some (f.filename, p) else none

/-- calculateDiffRiskSignal from signals.js; the pullRequest parameter is
accepted but unused, as in the source. -/
def calculateDiffRiskSignal (files : List ChangedFile)
    (_pullRequest : PullRequest) : SignalResult :=
  let totalAdditions := (files.map ChangedFile.additions).sum
  let totalDeletions := (files.map ChangedFile.deletions).sum
  let totalChanges := totalAdditions + totalDeletions
  let isLarge := totalChanges > RiskConfig.largeDiffThreshold
  let criticalHits := criticalHitsOf files
  let dangerousHits := dangerousHitsOf files
  let riskFactors : ℚ :=
    (if isLarge then 3/10 else 0) +
    (if criticalHits.length > 0 then 3/10 else 0) +
    (if dangerousHits.length > 0 then 4/10 else 0)
  let citations :=
    (if isLarge then [Citation.largeDiff totalChanges RiskConfig.largeDiffThreshold]
     else []) ++
    (if criticalHits.length > 0 then
      [Citation.criticalPatternHits (criticalHits.take 5) criticalHits.length]
     else []) ++
    (if dangerousHits.length > 0 then
      [Citation.dangerousPatternHits (dangerousHits.take 5) dangerousHits.length]
     else [])
  { signal := .diff_risk, score := round3 (min riskFactors 1), citations := citations }

/-- The fixed urgency keyword list of calculateTimePressureSignal. -/
def urgencyPatterns : List String :=
  ["urgent", "hotfix", "asap", "emergency", "critical fix"]

/-- calculateTimePressureSignal from signals.js: the creation time falls
back to the current clock when created_at is absent; weekend, late-night
or rush-hour constants and a first-match urgency constant accumulate and
the result is clamped to 1. -/
def calculateTimePressureSignal (pullRequest : PullRequest) (now : DateTime) :
    SignalResult :=
  let prCreatedAt := pullRequest.created_at.getD now
  let hour := prCreatedAt.hour
  let dayOfWeek := prCreatedAt.dayOfWeek
  let isWeekend := dayOfWeek == 0 || dayOfWeek == 6
  let prText :=
    lowerL ((pullRequest.title.getD "" ++ " " ++ pullRequest.body.getD "").data)
  let firstUrgency := urgencyPatterns.find? fun p => hasSub prText p.data
  let timePressure : ℚ :=
    (if isWeekend then RiskConfig.weekendRisk else 0) +
    (if hour ≥ RiskConfig.rushHourEnd ∨ hour < 6 then RiskConfig.lateNightRisk
     else if hour ≥ RiskConfig.rushHourStart then 2/10 else 0) +
    (match firstUrgency with | some _ => 3/10 | none => 0)
  let citations :=
    (if isWeekend then [Citation.weekend dayOfWeek] else []) ++
    (if hour ≥ RiskConfig.rushHourEnd ∨ hour < 6 then [Citation.lateNight hour]
     else if hour ≥ RiskConfig.rushHourStart then [Citation.rushHour hour] else []) ++
    (match firstUrgency with
     | some p => [Citation.urgencyIndicator p]
     | none => [])
  { signal := .time_pressure, score := round3 (min timePressure 1),
    citations := citations }

/-! ## Aggregator (src/lib/riskAnalysis.js) -/

/-- The signals object literal of analyzeRisk: the six signal results in
insertion order churn, coverage_gap, incident_hotspot, flake_proximity,
diff_risk, time_pressure. -/
structure Signals where
  churn : SignalResult
  coverage_gap : SignalResult
  incident_hotspot : SignalResult
  flake_proximity : SignalResult
  diff_risk : SignalResult
  time_pressure : SignalResult
deriving DecidableEq

/-- Field access on the signals object by signal name. -/
def Signals.get (s : Signals) : SignalName → SignalResult
  | .churn => s.churn
  | .coverage_gap => s.coverage_gap
  | .incident_hotspot => s.incident_hotspot
  | .flake_proximity => s.flake_proximity
  | .diff_risk => s.diff_risk
  | .time_pressure => s.time_pressure

/-- Field access on the weights object by signal name. -/
def Weights.get (w : Weights) : SignalName → ℚ
  | .churn => w.churn
  | .coverage_gap => w.coverage_gap
  | .incident_hotspot => w.incident_hotspot
  | .flake_proximity => w.flake_proximity
  | .diff_risk => w.diff_risk
  | .time_pressure => w.time_pressure

/-- Sum of the six weights, as validateWeights computes it. -/
def Weights.sum (w : Weights) : ℚ :=
  w.churn + w.coverage_gap + w.incident_hotspot + w.flake_proximity +
    w.diff_risk + w.time_pressure

/-- The canonical iteration order of Object.entries on the signals
object: its insertion order. -/
def signalOrder : List SignalName :=
  [.churn, .coverage_gap, .incident_hotspot, .flake_proximity, .diff_risk,
   .time_pressure]

/-- The weighted risk score expression of analyzeRisk. -/
def weightedRiskScore (w : Weights) (s : Signals) : ℚ :=
  w.churn * s.churn.score +
  w.coverage_gap * s.coverage_gap.score +
  w.incident_hotspot * s.incident_hotspot.score +
  w.flake_proximity * s.flake_proximity.score +
  w.diff_risk * s.diff_risk.score +
  w.time_pressure * s.time_pressure.score

/-- All six signal scores lie in the unit interval. -/
def Signals.scoresIn01 (s : Signals) : Prop :=
  (0 ≤ s.churn.score ∧ s.churn.score ≤ 1) ∧
  (0 ≤ s.coverage_gap.score ∧ s.coverage_gap.score ≤ 1) ∧
  (0 ≤ s.incident_hotspot.score ∧ s.incident_hotspot.score ≤ 1) ∧
  (0 ≤ s.flake_proximity.score ∧ s.flake_proximity.score ≤ 1) ∧
  (0 ≤ s.diff_risk.score ∧ s.diff_risk.score ≤ 1) ∧
  (0 ≤ s.time_pressure.score ∧ s.time_pressure.score ≤ 1)

/-- One mitigation record pushed by generateMitigations. -/
structure Mitigation where
  signal : SignalName
  score : ℚ
  requiresApproval : Bool
  suggestions : List String
  citations : List Citation
deriving DecidableEq

/-- generateMitigations from riskAnalysis.js: for every signal of the
signals object, in iteration order, whose score is at least one half,
push one mitigation carrying the configured suggestion list of the signal and
the first three of its citations, with requiresApproval set. -/
def generateMitigations (signals : Signals) : List Mitigation :=
  signalOrder.filterMap fun name =>
    let signal := signals.get name
    if (1 : ℚ)/2 ≤ signal.score then
      some { signal := name, score := signal.score, requiresApproval := true,
             suggestions := RiskConfig.mitigations name,
             citations := signal.citations.take 3 }
    else none

/-- The parameter object of analyzeRisk, with the defaulted history
inputs. -/
structure AnalyzeParams where
  files : List ChangedFile
  pullRequest : PullRequest
  commitHistory : List CommitRecord
  coverageData : String → Option ℚ
  incidentHistory : List IncidentRecord
  flakeData : String → Option FlakeInfo

/-- One entry of the signals map of the audit trace: the score of the signal and
its citation count (the explanation text is presentation only). -/
structure TraceSignal where
  score : ℚ
  citationCount : ℕ

/-- The audit trace built by analyzeRisk; traceId, timestamp and
executionTimeMs are run-identifying environment values outside the
model. -/
structure AuditTrace where
  prNumber : ℕ
  prTitle : Option String
  prAuthor : Option String
  filesAnalyzed : ℕ
  weights : Weights
  signals : SignalName → TraceSignal
  finalScore : ℚ
  riskLevel : RiskLevel
  mitigationCount : ℕ

/-- The composite analysis returned by analyzeRisk (the emoji and the
rendered summary string are presentation only). -/
structure RiskAnalysis where
  score : ℚ
  level : RiskLevel
  signals : Signals
  mitigations : List Mitigation
  auditTrace : AuditTrace

/-- analyzeRisk from riskAnalysis.js: run the six calculators, take the
weighted sum of their scores under the configured weights, classify it,
generate mitigations and build the audit trace.  The wall clock the code
reads through new Date is the explicit now parameter. -/
def analyzeRisk (params : AnalyzeParams) (now : DateTime) : RiskAnalysis :=
  let signals : Signals :=
    { churn := calculateChurnSignal params.files params.commitHistory now.millis,
      coverage_gap := calculateCoverageGapSignal params.files params.coverageData,
      incident_hotspot :=
        calculateIncidentHotspotSignal params.files params.incidentHistory now.millis,
      flake_proximity := calculateFlakeProximitySignal params.files params.flakeData,
      diff_risk := calculateDiffRiskSignal params.files params.pullRequest,
      time_pressure := calculateTimePressureSignal params.pullRequest now }
  let weights := RiskConfig.weights
  let riskScore := weightedRiskScore weights signals
  let riskLevel := getRiskLevel riskScore
  let mitigations := generateMitigations signals
  { score := round3 riskScore,
    level := riskLevel,
    signals := signals,
    mitigations := mitigations,
    auditTrace :=
      { prNumber := params.pullRequest.number,
        prTitle := params.pullRequest.title,
        prAuthor := params.pullRequest.userLogin,
        filesAnalyzed := params.files.length,
        weights := weights,
        signals := fun name =>
          { score := (signals.get name).score,
            citationCount := (signals.get name).citations.length },
        finalScore := round3 riskScore,
        riskLevel := riskLevel,
        mitigationCount := mitigations.length } }

/-! ## Concrete instantiation values -/

/-- A signals object carrying the six given scores and no citations; used
to instantiate quantified properties at concrete score assignments. -/
def signalsOfScores (q1 q2 q3 q4 q5 q6 : ℚ) : Signals :=
  { churn := { signal := .churn, score := q1, citations := [] },
    coverage_gap := { signal := .coverage_gap, score := q2, citations := [] },
    incident_hotspot := { signal := .incident_hotspot, score := q3, citations := [] },
    flake_proximity := { signal := .flake_proximity, score := q4, citations := [] },
    diff_risk := { signal := .diff_risk, score := q5, citations := [] },
    time_pressure := { signal := .time_pressure, score := q6, citations := [] } }

/-- A weight configuration summing to 1 with a negative entry. -/
def wNeg : Weights :=
  { churn := 2, coverage_gap := -1, incident_hotspot := 0, flake_proximity := 0,
    diff_risk := 0, time_pressure := 0 }

/-- A changed file with 600 added lines, an unremarkable name and no
patch text. -/
def file600 : ChangedFile :=
  { filename := "server.js", status := "modified", additions := 600,
    deletions := 0, patch := none }

/-- A pull request with every optional field absent. -/
def prNoMeta : PullRequest :=
  { number := 1, title := none, body := none, created_at := none,
    userLogin := none }

/-- A weekday mid-morning clock reading (Tuesday, 10:00). -/
def clockWeekday : DateTime := { millis := 0, hour := 10, dayOfWeek := 2 }

/-- A weekend mid-morning clock reading (Saturday, 10:00). -/
def clockWeekend : DateTime := { millis := 0, hour := 10, dayOfWeek := 6 }

/-- A pull request created on the weekday clock. -/
def prWithDate : PullRequest :=
  { number := 2, title := none, body := none, created_at := some clockWeekday,
    userLogin := none }

/-- A signals object where only churn reaches the mitigation trigger. -/
def signalsChurnHigh : Signals := signalsOfScores 1 0 0 0 0 0

/-- The single mitigation generateMitigations emits for
signalsChurnHigh. -/
def mitigationChurnHigh : Mitigation :=
  { signal := .churn, score := 1, requiresApproval := true,
    suggestions := RiskConfig.mitigations .churn, citations := [] }

/-! ## Theorems -/

theorem diffRun_isSome (ls : List (List Char)) :
    ∀ (pos : ℕ) (st : DiffState) (k : Int),
    ((diffRun ls pos st).positions k).isSome ↔
      (st.positions k).isSome ∨ k ∈ addedNewLines ls st.currentNewLine := by
  induction ls with
  | nil => intro pos st k; simp [diffRun, addedNewLines]
  | cons l ls ih =>
    intro pos st k
    simp only [diffRun, addedNewLines]
    cases h : parseHunkHeader l with
    | some c =>
      simp only [diffStep, h]
      rw [ih]
    | none =>
      simp only [diffStep, h]
      by_cases h1 : (!startsWithL l ['-'] && !startsWithL l ['+']) = true
      · simp only [h1, if_true, if_pos]
        rw [ih]
      · rw [if_neg (by simpa using h1)]
        by_cases h2 : (startsWithL l ['+'] && !startsWithL l ['+', '+', '+']) = true
        · rw [if_pos h2, if_neg (by simpa using h1), if_pos h2, ih]
          simp only [setPos, List.mem_cons]
          by_cases hk : k = st.currentNewLine + 1 <;> simp [hk]
        · rw [if_neg h2, if_neg (by simpa using h1), if_neg h2, ih]

theorem startsWith_dash_not_plus (l : List Char) (h : startsWithL l ['-'] = true) :
    startsWithL l ['+'] = false := by
  cases l with
  | nil => simp [startsWithL] at h
  | cons c cs =>
    simp [startsWithL] at h ⊢
    simp [h]

/-- C4: parseDiffPositions maintains a 1-based diff position counting every
patch line including hunk headers (the loop processes the line after
position pos at position pos + 1, starting from 0); on a hunk header
matching the regex it resets the new-file line counter to the captured
new-file start minus 1; on a context line (no leading plus or minus) it
increments the counter; on an addition line (leading plus, not the
plus-plus-plus file marker) it increments the counter and records the diff
position under the new counter value; on a deletion line it leaves the
state unchanged; and the keys of the returned map are exactly the new-file
line numbers computed for the addition lines. -/
theorem parseDiffPositions_spec (pos : ℕ) (st : DiffState) (line : List Char)
    (ls : List (List Char)) (patch : String) (k : Int) :
    (diffRun (line :: ls) pos st = diffRun ls (pos + 1) (diffStep (pos + 1) st line))
    ∧ (∀ c, parseHunkHeader line = some c →
        diffStep pos st line = { st with currentNewLine := (c : Int) - 1 })
    ∧ (parseHunkHeader line = none → startsWithL line ['-'] = false →
        startsWithL line ['+'] = false →
        diffStep pos st line = { st with currentNewLine := st.currentNewLine + 1 })
    ∧ (parseHunkHeader line = none → startsWithL line ['+'] = true →
        startsWithL line ['+', '+', '+'] = false →
        diffStep pos st line =
          { currentNewLine := st.currentNewLine + 1,
            positions := setPos st.positions (st.currentNewLine + 1) pos })
    ∧ (parseHunkHeader line = none → startsWithL line ['-'] = true →
        diffStep pos st line = st)
    ∧ ((parseDiffPositions patch k).isSome ↔
        k ∈ addedNewLines (splitLines patch.data) 0) := by
  refine ⟨rfl, ?_, ?_, ?_, ?_, ?_⟩
  · intro c hc; simp [diffStep, hc]
  · intro h h1 h2; simp [diffStep, h, h1, h2]
  · intro h h1 h2; simp [diffStep, h, h1, h2]
  · intro h h1
    have h2 := startsWith_dash_not_plus line h1
    simp [diffStep, h, h1, h2]
  · unfold parseDiffPositions
    rw [diffRun_isSome]
    simp

/-- C4 witness: the addition-line clause of the step characterization at a
concrete line, position and state, and the keys characterization at a
concrete one-hunk patch. -/
theorem parseDiffPositions_spec_witness :
    (diffStep 3 { currentNewLine := 1, positions := fun _ => none } ['+', 'a'] =
      { currentNewLine := 2, positions := setPos (fun _ => none) 2 3 })
    ∧ ((parseDiffPositions "@@ -1,2 +1,3 @@\n context\n+added\n-removed" 2).isSome ↔
        2 ∈ addedNewLines
          (splitLines ("@@ -1,2 +1,3 @@\n context\n+added\n-removed").data) 0) := by
  constructor
  · exact (parseDiffPositions_spec 3 { currentNewLine := 1, positions := fun _ => none }
      ['+', 'a'] [] "" 0).2.2.2.1 (by decide) (by decide) (by decide)
  · exact (parseDiffPositions_spec 0 { currentNewLine := 0, positions := fun _ => none }
      [] [] "@@ -1,2 +1,3 @@\n context\n+added\n-removed" 2).2.2.2.2.2

/-- C5 counterexample: on the patch of the claim, new-file line 2 (the
added line) IS in the map, mapped to diff position 3, and new-file line 3
is not in the map at all: the claim has the two line numbers one too high. -/
theorem parseDiffPositions_example_counterexample :
    parseDiffPositions "@@ -1,2 +1,3 @@\n context\n+added\n-removed" 2 = some 3
    ∧ parseDiffPositions "@@ -1,2 +1,3 @@\n context\n+added\n-removed" 3 = none := by
  constructor <;> decide

/-- C5 amended: for the four-line patch of the claim, the hunk starts the
new file at line 1, so the context line is new-file line 1 (not in the
map), the added line is new-file line 2 and maps to diff position 3
(header = 1, context = 2, addition = 3), and new-file line 3 does not
exist in the map. -/
theorem parseDiffPositions_example :
    parseDiffPositions "@@ -1,2 +1,3 @@\n context\n+added\n-removed" 1 = none
    ∧ parseDiffPositions "@@ -1,2 +1,3 @@\n context\n+added\n-removed" 2 = some 3
    ∧ parseDiffPositions "@@ -1,2 +1,3 @@\n context\n+added\n-removed" 3 = none := by
  refine ⟨by decide, by decide, by decide⟩


theorem round3_zero : round3 0 = 0 := by norm_num [round3]

/-- C2: getRiskLevel returns LOW exactly below 3/10, MEDIUM exactly on
[3/10, 6/10), HIGH exactly from 6/10 up, takes the claimed values at
0.29, 0.30, 0.59 and 0.60, and is monotonically non-decreasing. -/
theorem getRiskLevel_spec (s t : ℚ) (hst : s ≤ t) :
    (getRiskLevel s = .LOW ↔ s < 3/10)
  ∧ (getRiskLevel s = .MEDIUM ↔ 3/10 ≤ s ∧ s < 6/10)
  ∧ (getRiskLevel s = .HIGH ↔ 6/10 ≤ s)
  ∧ getRiskLevel (29/100) = .LOW
  ∧ getRiskLevel (30/100) = .MEDIUM
  ∧ getRiskLevel (59/100) = .MEDIUM
  ∧ getRiskLevel (60/100) = .HIGH
  ∧ (getRiskLevel s).rank ≤ (getRiskLevel t).rank := by
  unfold getRiskLevel RiskConfig.thresholdLOW RiskConfig.thresholdMEDIUM
  refine ⟨?_, ?_, ?_, by norm_num, by norm_num, by norm_num, by norm_num, ?_⟩
  · split_ifs with h1 h2 <;> simp_all
  · split_ifs with h1 h2 <;> simp_all
  · split_ifs with h1 h2 <;> simp_all
    linarith
  · split_ifs <;> simp_all [RiskLevel.rank] <;> linarith

/-- C2 witness: the characterization applied at the pair 1/4 ≤ 3/4. -/
theorem getRiskLevel_spec_witness :
    (getRiskLevel (1/4) = .LOW ↔ (1:ℚ)/4 < 3/10)
  ∧ (getRiskLevel (1/4) = .MEDIUM ↔ 3/10 ≤ (1:ℚ)/4 ∧ (1:ℚ)/4 < 6/10)
  ∧ (getRiskLevel (1/4) = .HIGH ↔ 6/10 ≤ (1:ℚ)/4)
  ∧ getRiskLevel (29/100) = .LOW
  ∧ getRiskLevel (30/100) = .MEDIUM
  ∧ getRiskLevel (59/100) = .MEDIUM
  ∧ getRiskLevel (60/100) = .HIGH
  ∧ (getRiskLevel (1/4)).rank ≤ (getRiskLevel (3/4)).rank :=
  getRiskLevel_spec (1/4) (3/4) (by norm_num)

/-- C1 counterexample: a weight configuration whose six weights sum to
1.0 but with a negative entry, together with six signal scores in the
unit interval, makes the weighted sum 2, outside the unit interval. -/
theorem weightedRiskScore_counterexample :
    Weights.sum wNeg = 1
  ∧ Signals.scoresIn01 (signalsOfScores 1 0 0 0 0 0)
  ∧ ¬ (0 ≤ weightedRiskScore wNeg (signalsOfScores 1 0 0 0 0 0)
        ∧ weightedRiskScore wNeg (signalsOfScores 1 0 0 0 0 0) ≤ 1) := by
  refine ⟨by norm_num [Weights.sum, wNeg], ?_, ?_⟩
  · refine ⟨?_, ?_, ?_, ?_, ?_, ?_⟩ <;> norm_num [signalsOfScores]
  · norm_num [weightedRiskScore, wNeg, signalsOfScores]

/-- C1 (amended): for every weight configuration with six nonnegative
weights summing to 1.0 and six signal scores in the unit interval, the
weighted sum computed by analyzeRisk lies in the unit interval. -/
theorem weightedRiskScore_in_unit_interval (w : Weights) (s : Signals)
    (h1 : 0 ≤ w.churn) (h2 : 0 ≤ w.coverage_gap) (h3 : 0 ≤ w.incident_hotspot)
    (h4 : 0 ≤ w.flake_proximity) (h5 : 0 ≤ w.diff_risk) (h6 : 0 ≤ w.time_pressure)
    (hsum : w.sum = 1) (hs : s.scoresIn01) :
    0 ≤ weightedRiskScore w s ∧ weightedRiskScore w s ≤ 1 := by
  obtain ⟨⟨a0, a1⟩, ⟨b0, b1⟩, ⟨c0, c1⟩, ⟨d0, d1⟩, ⟨e0, e1⟩, ⟨f0, f1⟩⟩ := hs
  unfold Weights.sum at hsum
  unfold weightedRiskScore
  constructor
  · have := mul_nonneg h1 a0
    have := mul_nonneg h2 b0
    have := mul_nonneg h3 c0
    have := mul_nonneg h4 d0
    have := mul_nonneg h5 e0
    have := mul_nonneg h6 f0
    linarith
  · have := mul_le_of_le_one_right h1 a1
    have := mul_le_of_le_one_right h2 b1
    have := mul_le_of_le_one_right h3 c1
    have := mul_le_of_le_one_right h4 d1
    have := mul_le_of_le_one_right h5 e1
    have := mul_le_of_le_one_right h6 f1
    linarith

/-- C1 witness: the bound applied to the configured weights and the
all-one-half score assignment. -/
theorem weightedRiskScore_in_unit_interval_witness :
    0 ≤ weightedRiskScore RiskConfig.weights (signalsOfScores (1/2) (1/2) (1/2) (1/2) (1/2) (1/2))
  ∧ weightedRiskScore RiskConfig.weights (signalsOfScores (1/2) (1/2) (1/2) (1/2) (1/2) (1/2)) ≤ 1 :=
  weightedRiskScore_in_unit_interval RiskConfig.weights _
    (by norm_num [RiskConfig.weights]) (by norm_num [RiskConfig.weights])
    (by norm_num [RiskConfig.weights]) (by norm_num [RiskConfig.weights])
    (by norm_num [RiskConfig.weights]) (by norm_num [RiskConfig.weights])
    (by norm_num [Weights.sum, RiskConfig.weights])
    (by refine ⟨?_, ?_, ?_, ?_, ?_, ?_⟩ <;> norm_num [signalsOfScores])


theorem churnFileCommits_nil (nowMillis : Int) (f : ChangedFile) :
    churnFileCommits [] nowMillis f = 0 := rfl

theorem foldl_max_churn_nil (files : List ChangedFile) (nowMillis : Int) :
    ∀ a : ℕ, files.foldl (fun m f => max m (churnFileCommits [] nowMillis f)) a = a := by
  induction files with
  | nil => intro a; rfl
  | cons f fs ih => intro a; simp [List.foldl, churnFileCommits_nil, ih]

theorem foldl_flake_none (files : List ChangedFile) :
    ∀ a : ℚ, files.foldl (fun acc f => acc + flakeAdd (fun _ => none) f) a = a := by
  induction files with
  | nil => intro a; rfl
  | cons f fs ih => intro a; simp [List.foldl, flakeAdd, ih]

theorem filter_hotspot_nil (files : List ChangedFile) (nowMillis : Int) :
    (files.filter fun f =>
      let rel := relatedIncidents [] nowMillis f
      decide (rel.length > 0) && decide (rel.length ≥ RiskConfig.hotspotThreshold)) = [] := by
  induction files with
  | nil => rfl
  | cons f fs ih => simp_all [List.filter, relatedIncidents]

/-- C3 counterexample: with one 600-line changed file and every optional
history input empty or absent, coverage gap scores 1 (unknown coverage
counts as uncovered), diff risk scores 0.3 (large diff), and time
pressure read on a weekend clock scores 0.3; none of the three is 0. -/
theorem empty_history_counterexample :
    (calculateCoverageGapSignal [file600] (fun _ => none)).score = 1
  ∧ (calculateDiffRiskSignal [file600] prNoMeta).score = 3/10
  ∧ (calculateTimePressureSignal prNoMeta clockWeekend).score = 3/10 := by
  refine ⟨?_, ?_, ?_⟩
  · have hcrit : isCriticalFile file600.filename = false := by decide
    have hunc : coverageUncovered (fun _ => none) file600 = true := rfl
    simp [calculateCoverageGapSignal, List.filter, List.filterMap, hcrit, hunc]
    norm_num [round3]
  · have hc : criticalHitsOf [file600] = [] := by decide
    have hd : dangerousHitsOf [file600] = [] := by decide
    simp only [calculateDiffRiskSignal, hc, hd]
    norm_num [file600, RiskConfig.largeDiffThreshold, min_def, round3]
  · have hu : List.find? (fun p => hasSub (lowerL [' ']) p.data) urgencyPatterns = none := by
      decide
    simp [calculateTimePressureSignal, prNoMeta, clockWeekend,
      RiskConfig.rushHourEnd, RiskConfig.rushHourStart, RiskConfig.weekendRisk]
    rw [hu]
    norm_num [min_def, round3]

/-- C3 (amended): the three history-counting calculators (churn, incident
hotspot, flake proximity) return score 0 for every changed-file list when
their history input is empty; coverage gap instead treats files without
coverage data as uncovered, and diff risk and time pressure depend on the
diff itself and the clock, so they need not be 0 on missing optional
data; all six are total functions that never fail on missing data. -/
theorem empty_history_counting_signals_zero (files : List ChangedFile)
    (nowMillis : Int) :
    (calculateChurnSignal files [] nowMillis).score = 0
  ∧ (calculateIncidentHotspotSignal files [] nowMillis).score = 0
  ∧ (calculateFlakeProximitySignal files (fun _ => none)).score = 0 := by
  refine ⟨?_, ?_, ?_⟩
  · simp [calculateChurnSignal, foldl_max_churn_nil]
    norm_num [round3]
  · simp [calculateIncidentHotspotSignal, filter_hotspot_nil]
    norm_num [round3]
  · simp [calculateFlakeProximitySignal, foldl_flake_none]
    norm_num [round3]

/-- C9: on the empty changed-file list the guarded divisions are not
taken and coverage gap, incident hotspot and flake proximity all return
exactly 0, whatever the history inputs. -/
theorem empty_files_signals_zero (coverageData : String → Option ℚ)
    (incidentHistory : List IncidentRecord)
    (flakeData : String → Option FlakeInfo) (nowMillis : Int) :
    (calculateCoverageGapSignal [] coverageData).score = 0
  ∧ (calculateIncidentHotspotSignal [] incidentHistory nowMillis).score = 0
  ∧ (calculateFlakeProximitySignal [] flakeData).score = 0 := by
  refine ⟨?_, ?_, ?_⟩ <;> norm_num [calculateCoverageGapSignal,
    calculateIncidentHotspotSignal, calculateFlakeProximitySignal,
    List.filter, List.filterMap, List.foldl, round3]

/-- C10: the time-pressure signal is not a function of the supplied
inputs alone: with created_at absent, the same pull request read on a
weekday clock and on a weekend clock yields different scores; with
created_at present, the result does not depend on the clock at all. -/
theorem timePressure_wall_clock (pr : PullRequest) (d : DateTime)
    (now₁ now₂ : DateTime) (h : pr.created_at = some d) :
    (calculateTimePressureSignal prNoMeta clockWeekday).score ≠
      (calculateTimePressureSignal prNoMeta clockWeekend).score
  ∧ calculateTimePressureSignal pr now₁ = calculateTimePressureSignal pr now₂ := by
  constructor
  · have hu : List.find? (fun p => hasSub (lowerL [' ']) p.data) urgencyPatterns = none := by
      decide
    simp [calculateTimePressureSignal, prNoMeta, clockWeekday, clockWeekend,
      RiskConfig.rushHourEnd, RiskConfig.rushHourStart, RiskConfig.weekendRisk]
    rw [hu]
    norm_num [min_def, round3]
  · simp [calculateTimePressureSignal, h]

/-- C10 witness: the clock-independence part applied to a pull request
whose created_at is present, at two different clocks. -/
theorem timePressure_wall_clock_witness :
    (calculateTimePressureSignal prNoMeta clockWeekday).score ≠
      (calculateTimePressureSignal prNoMeta clockWeekend).score
  ∧ calculateTimePressureSignal prWithDate clockWeekday =
      calculateTimePressureSignal prWithDate clockWeekend :=
  timePressure_wall_clock prWithDate clockWeekday clockWeekday clockWeekend rfl


theorem map_signal_filterMap (s : Signals) (l : List SignalName) :
    ((l.filterMap fun name =>
        if (1 : ℚ)/2 ≤ (s.get name).score then
          some { signal := name, score := (s.get name).score, requiresApproval := true,
                 suggestions := RiskConfig.mitigations name,
                 citations := (s.get name).citations.take 3 : Mitigation }
        else none).map Mitigation.signal) =
      l.filter fun name => decide ((1 : ℚ)/2 ≤ (s.get name).score) := by
  induction l with
  | nil => rfl
  | cons n ns ih =>
    by_cases h : (1 : ℚ)/2 ≤ (s.get n).score
    · rw [List.filterMap_cons, if_pos h, List.filter_cons,
        if_pos (by simpa using h), List.map_cons, ih]
    · rw [List.filterMap_cons, if_neg h, List.filter_cons,
        if_neg (by simpa using h), ih]

/-- C6: the mitigations emitted by generateMitigations carry, in order,
exactly the signals of the canonical iteration order (churn,
coverage_gap, incident_hotspot, flake_proximity, diff_risk,
time_pressure) whose score is at least one half: the emitted signal
names equal the canonical order filtered by the trigger (so the order is
the iteration order, not sorted by score), no signal appears twice, and
a signal appears exactly when its score reaches one half - so a score of
exactly 0.5 triggers and 0.499 does not. -/
theorem generateMitigations_spec (s : Signals) :
    ((generateMitigations s).map Mitigation.signal =
      signalOrder.filter fun name => decide ((1 : ℚ)/2 ≤ (s.get name).score))
  ∧ ((generateMitigations s).map Mitigation.signal).Nodup
  ∧ (∀ name, name ∈ (generateMitigations s).map Mitigation.signal ↔
      (1 : ℚ)/2 ≤ (s.get name).score) := by
  have hmap : ((generateMitigations s).map Mitigation.signal =
      signalOrder.filter fun name => decide ((1 : ℚ)/2 ≤ (s.get name).score)) :=
    map_signal_filterMap s signalOrder
  refine ⟨hmap, ?_, ?_⟩
  · rw [hmap]
    exact (by decide : signalOrder.Nodup).filter _
  · intro name
    rw [hmap]
    have hmem : name ∈ signalOrder := by cases name <;> simp [signalOrder]
    simp [List.mem_filter, hmem]

/-- C7 counterexample: for a signals object whose churn signal scores 1,
the single emitted mitigation carries all 3 configured churn suggestion
strings, not exactly the top 2 - the top-2 cut happens only in the
rendered summary. -/
theorem mitigation_suggestions_counterexample :
    (generateMitigations signalsChurnHigh).map (fun m => m.suggestions.length) = [3] := by
  norm_num [generateMitigations, signalOrder, Signals.get, signalsChurnHigh,
    signalsOfScores, RiskConfig.mitigations, List.filterMap]

/-- C7 (amended): every mitigation emitted by generateMitigations has
requiresApproval true, carries the full configured
suggestion list (of which only the top 2 are shown in the rendered
summary, keyed by the triggering signal), and carries exactly the top 3 citations of the signal, hence at
most 3. -/
theorem generateMitigations_fields (s : Signals) (m : Mitigation)
    (hm : m ∈ generateMitigations s) :
    m.requiresApproval = true
  ∧ m.suggestions = RiskConfig.mitigations m.signal
  ∧ m.citations = (s.get m.signal).citations.take 3
  ∧ m.citations.length ≤ 3 := by
  simp only [generateMitigations, List.mem_filterMap] at hm
  obtain ⟨name, -, heq⟩ := hm
  by_cases hc : (1 : ℚ)/2 ≤ (s.get name).score
  · rw [if_pos hc] at heq
    cases heq
    refine ⟨rfl, rfl, rfl, ?_⟩
    simp [List.length_take]
  · rw [if_neg hc] at heq
    cases heq

/-- C7 witness: the field description applied to the mitigation emitted
for the churn-high signals object. -/
theorem generateMitigations_fields_witness :
    mitigationChurnHigh.requiresApproval = true
  ∧ mitigationChurnHigh.suggestions = RiskConfig.mitigations mitigationChurnHigh.signal
  ∧ mitigationChurnHigh.citations =
      (signalsChurnHigh.get mitigationChurnHigh.signal).citations.take 3
  ∧ mitigationChurnHigh.citations.length ≤ 3 :=
  generateMitigations_fields signalsChurnHigh mitigationChurnHigh (by
    norm_num [generateMitigations, signalOrder, Signals.get, signalsChurnHigh,
      signalsOfScores, mitigationChurnHigh, List.filterMap])

/-- C8: the audit trace built by analyzeRisk is internally
reconstructible: its finalScore is the 3-decimal rounding of the weighted
sum, over the six signals, of the per-signal scores stored in the trace
under the weights stored in the trace. -/
theorem auditTrace_reconstructible (params : AnalyzeParams) (now : DateTime) :
    (analyzeRisk params now).auditTrace.finalScore =
      round3 (
        (analyzeRisk params now).auditTrace.weights.churn *
          ((analyzeRisk params now).auditTrace.signals .churn).score +
        (analyzeRisk params now).auditTrace.weights.coverage_gap *
          ((analyzeRisk params now).auditTrace.signals .coverage_gap).score +
        (analyzeRisk params now).auditTrace.weights.incident_hotspot *
          ((analyzeRisk params now).auditTrace.signals .incident_hotspot).score +
        (analyzeRisk params now).auditTrace.weights.flake_proximity *
          ((analyzeRisk params now).auditTrace.signals .flake_proximity).score +
        (analyzeRisk params now).auditTrace.weights.diff_risk *
          ((analyzeRisk params now).auditTrace.signals .diff_risk).score +
        (analyzeRisk params now).auditTrace.weights.time_pressure *
          ((analyzeRisk params now).auditTrace.signals .time_pressure).score) := rfl

end CodeReviewer
